import Mathlib

/-!
A verification development for the HLTV player-statistics scraper.

The Python source is shallowly embedded: pure logic becomes Lean
functions, exceptions become `Option`/`Except`, and the observable
effects that the specification talks about (invocation counts, sleep
durations, fetched offsets) are returned explicitly alongside results.
-/

set_option autoImplicit false

namespace HLTV

/-!
## Retry policy — `src/utils/exponential_backoff.py`

The decorator `exponential_backoff` wraps a callable and runs

    retry_count = 0
    while retry_count < max_retries:
        try: return func(...)
        except Exception:
            time.sleep(exponential_wait_time * (2 ** retry_count))
            retry_count += 1
    return None

The wrapped callable is modelled as `op : Nat -> Option A`: `op k` is the
outcome of the invocation made when `retry_count = k` (`none` = the call
raised).  The embedding returns, besides the Python return value, the
number of invocations made and the list of sleep durations in order.
The wait time is a Python float multiplied by a power of two; it is
modelled as a rational.
-/

def backoffAux {α : Type} (op : Nat → Option α) (exponential_wait_time : ℚ) :
    Nat → Nat → Option α × Nat × List ℚ
  | _, 0 => (none, 0, [])
  | retry_count, fuel + 1 =>
    match op retry_count with
    | some v => (some v, 1, [])
    | none =>
      match backoffAux op exponential_wait_time (retry_count + 1) fuel with
      | (res, calls, sleeps) =>
        (res, calls + 1, exponential_wait_time * 2 ^ retry_count :: sleeps)

/-- The wrapper produced by the decorator: the while loop starts at
`retry_count = 0` and performs at most `max_retries` iterations. -/
def exponential_backoff {α : Type} (op : Nat → Option α)
    (max_retries : Nat) (exponential_wait_time : ℚ) : Option α × Nat × List ℚ :=
  backoffAux op exponential_wait_time 0 max_retries

theorem backoffAux_always_fail {α : Type} (op : Nat → Option α) (W : ℚ)
    (hfail : ∀ k, op k = none) :
    ∀ (fuel start : Nat),
      backoffAux op W start fuel
        = (none, fuel, (List.range' start fuel).map (fun k => W * 2 ^ k)) := by
  intro fuel
  induction fuel with
  | zero => intro start; simp [backoffAux]
  | succ n ih =>
    intro start
    simp [backoffAux, hfail start, ih (start + 1), List.range']

/-- C1: with `max_retries = N ≥ 1` and wait `W`, an operation that fails on
every invocation is invoked exactly `N` times, the wrapper sleeps
`W·2^0, W·2^1, …, W·2^(N-1)` in that order, and it then yields the
exhausted sentinel `none` instead of raising. -/
theorem exponential_backoff_always_fail {α : Type} (op : Nat → Option α)
    (N : Nat) (W : ℚ) (hN : 1 ≤ N) (hfail : ∀ k, op k = none) :
    exponential_backoff op N W
      = (none, N, (List.range N).map (fun k => W * 2 ^ k)) := by
  have h := backoffAux_always_fail op W hfail N 0
  rw [exponential_backoff, h, List.range_eq_range']

/-- Witness for C1 at `N = 3`, `W = 11/2` (the source's default 5.5). -/
theorem exponential_backoff_always_fail_witness :
    1 ≤ 3 ∧
      exponential_backoff (fun _ => (none : Option Nat)) 3 ((11 : ℚ)/2)
        = (none, 3, [(11 : ℚ)/2 * 2 ^ 0, (11 : ℚ)/2 * 2 ^ 1, (11 : ℚ)/2 * 2 ^ 2]) := by
  refine ⟨by decide, ?_⟩
  have h := exponential_backoff_always_fail (fun _ => (none : Option Nat)) 3
    ((11 : ℚ)/2) (by decide) (fun _ => rfl)
  simpa [List.range_succ] using h

/-- C4 counterexample: with `max_retries = 0` the loop guard
`retry_count < max_retries` is false at once, so the operation is invoked
zero times — not once as claimed — and the wrapper returns the exhausted
sentinel even for an operation that would have succeeded. -/
theorem exponential_backoff_zero_retries_counterexample :
    exponential_backoff (fun _ => some (42 : Nat)) 0 ((11 : ℚ)/2) = (none, 0, [])
      ∧ (exponential_backoff (fun _ => some (42 : Nat)) 0 ((11 : ℚ)/2)).2.1 ≠ 1 := by
  exact ⟨rfl, by decide⟩

/-- C4 amended: when `max_retries = 0` the wrapped operation is never
executed (zero invocations) and the wrapper is immediately exhausted with
no sleep, whatever the operation would have returned. -/
theorem exponential_backoff_zero_retries {α : Type} (op : Nat → Option α) (W : ℚ) :
    exponential_backoff op 0 W = (none, 0, []) := rfl

/-!
## Pagination crawl — `src/player.py`, `get_match_urls`

The driving loop is

    while (result := get_matches_from_url(self, offset)) != []:
        matches.extend(result)
        if len(result) < 100: break
        offset += 100
    return matches

`get_matches_from_url` is wrapped by the retry decorator, so it returns
either a page (a Python list of match references) or the exhausted
sentinel `None`; it is modelled as `fetch : Nat -> Option (List A)`
indexed by the offset.  Note that when `fetch` yields `none`, the loop
guard `None != []` is `True`, so the body runs `matches.extend(None)`
which raises `TypeError`; the embedding surfaces that as `Except.error`.
Besides the Python result, the embedding records the list of offsets at
which fetches were performed.  A fuel argument bounds the loop (the
Python loop itself does not terminate on an endless run of full pages).
-/

def crawlAux {α : Type} (fetch : Nat → Option (List α)) :
    Nat → List α → List Nat → Nat → Except String (List α × List Nat)
  | _, _, _, 0 => Except.error "out of fuel"
  | offset, acc, fetched, fuel + 1 =>
    match fetch offset with
    | none => Except.error "TypeError: NoneType object is not iterable"
    | some [] => Except.ok (acc, fetched ++ [offset])
    | some (x :: xs) =>
      if (x :: xs).length < 100 then Except.ok (acc ++ x :: xs, fetched ++ [offset])
      else crawlAux fetch (offset + 100) (acc ++ x :: xs) (fetched ++ [offset]) fuel

/-- The loop of `get_match_urls`: `offset = 0`, empty accumulator. -/
def get_match_urls {α : Type} (fetch : Nat → Option (List α)) (fuel : Nat) :
    Except String (List α × List Nat) :=
  crawlAux fetch 0 [] [] fuel

/-- A match-history source whose page at offset `100*i` holds
`sizes[i]` references (0 past the end of `sizes`); the reference at
row `j` of the page at `offset` is numbered `offset + j`. -/
def fetch_sizes (sizes : List Nat) (offset : Nat) : Option (List Nat) :=
  some ((List.range (sizes.getD (offset / 100) 0)).map (fun j => offset + j))

theorem crawlAux_empty_page {α : Type} (fetch : Nat → Option (List α))
    (offset : Nat) (acc : List α) (fetched : List Nat) (fuel : Nat)
    (h : fetch offset = some []) :
    crawlAux fetch offset acc fetched (fuel + 1) = Except.ok (acc, fetched ++ [offset]) := by
  simp [crawlAux, h]

theorem crawlAux_short_page {α : Type} (fetch : Nat → Option (List α))
    (offset : Nat) (acc : List α) (fetched : List Nat) (fuel : Nat) (p : List α)
    (h : fetch offset = some p) (hne : p ≠ []) (hlt : p.length < 100) :
    crawlAux fetch offset acc fetched (fuel + 1)
      = Except.ok (acc ++ p, fetched ++ [offset]) := by
  obtain ⟨x, xs, rfl⟩ := List.exists_cons_of_ne_nil hne
  simp only [crawlAux, h]
  rw [if_pos hlt]

theorem crawlAux_full_page {α : Type} (fetch : Nat → Option (List α))
    (offset : Nat) (acc : List α) (fetched : List Nat) (fuel : Nat) (p : List α)
    (h : fetch offset = some p) (hlen : p.length = 100) :
    crawlAux fetch offset acc fetched (fuel + 1)
      = crawlAux fetch (offset + 100) (acc ++ p) (fetched ++ [offset]) fuel := by
  have hne : p ≠ [] := by
    intro hnil
    rw [hnil] at hlen
    simp at hlen
  obtain ⟨x, xs, rfl⟩ := List.exists_cons_of_ne_nil hne
  simp [crawlAux, h, hlen]

set_option maxRecDepth 20000 in
/-- C2: the crawl halts immediately on a page of 0 references, halts after
accumulating a page of fewer than 100 references, and otherwise advances
the offset by 100 and fetches again; pages of sizes `[100, 100, 47]`
yield 247 references in exactly 3 fetches at offsets 0, 100, 200, and a
history of exactly 200 references takes 3 fetches (100, 100, 0), the last
fetch returning an empty page. -/
theorem get_match_urls_pagination :
    (∀ (α : Type) (fetch : Nat → Option (List α)) (offset : Nat) (acc : List α)
        (fetched : List Nat) (fuel : Nat),
      fetch offset = some [] →
        crawlAux fetch offset acc fetched (fuel + 1) = Except.ok (acc, fetched ++ [offset]))
    ∧ (∀ (α : Type) (fetch : Nat → Option (List α)) (offset : Nat) (acc : List α)
        (fetched : List Nat) (fuel : Nat) (p : List α),
      fetch offset = some p → p ≠ [] → p.length < 100 →
        crawlAux fetch offset acc fetched (fuel + 1) = Except.ok (acc ++ p, fetched ++ [offset]))
    ∧ (∀ (α : Type) (fetch : Nat → Option (List α)) (offset : Nat) (acc : List α)
        (fetched : List Nat) (fuel : Nat) (p : List α),
      fetch offset = some p → p.length = 100 →
        crawlAux fetch offset acc fetched (fuel + 1)
          = crawlAux fetch (offset + 100) (acc ++ p) (fetched ++ [offset]) fuel)
    ∧ get_match_urls (fetch_sizes [100, 100, 47]) 10
        = Except.ok (List.range 247, [0, 100, 200])
    ∧ get_match_urls (fetch_sizes [100, 100]) 10
        = Except.ok (List.range 200, [0, 100, 200])
    ∧ fetch_sizes [100, 100] 200 = some [] := by
  refine ⟨?_, ?_, ?_, ?_, ?_, rfl⟩
  · intro α fetch offset acc fetched fuel h
    exact crawlAux_empty_page fetch offset acc fetched fuel h
  · intro α fetch offset acc fetched fuel p h hne hlt
    exact crawlAux_short_page fetch offset acc fetched fuel p h hne hlt
  · intro α fetch offset acc fetched fuel p h hlen
    exact crawlAux_full_page fetch offset acc fetched fuel p h hlen
  · rfl
  · rfl

/-- Witness for C2: the termination rules applied at a concrete input. -/
theorem get_match_urls_pagination_witness :
    crawlAux (fun _ => some ([] : List Nat)) 0 [] [] 1 = Except.ok ([], [0]) :=
  get_match_urls_pagination.1 Nat (fun _ => some []) 0 [] [] 0 rfl

/-- C3 (code bug): when the very first page fetch exhausts its retries and
the retry wrapper yields `None`, the loop guard `None != []` is `True` and
`matches.extend(None)` raises `TypeError` — the exhaustion terminates
`get_match_urls` with an exception instead of surfacing as an empty
result. -/
theorem get_match_urls_exhaustion_type_error :
    get_match_urls (fun _ => (none : Option (List Nat))) 5
      = Except.error "TypeError: NoneType object is not iterable" := rfl

/-!
## Search filter — `src/configs.py`, class `Filter`

`datetime` values are modelled at day granularity as the number of days
since `datetime.min` (0001-01-01); the program only ever subtracts whole
days (`timedelta(days=…)`) and renders dates with `strftime("%Y-%m-%d")`.
`datetime.now()` is modelled as a single clock reading passed to the
constructor.  A Python `set` of map names is modelled by its iteration
sequence, a `List String`: CPython does not fix that order as a function
of the elements alone (it depends on the hash seed and, under collisions,
on insertion history), so distinct iteration orders of one and the same
element set are legitimate behaviours of the source.
-/

structure PyDateTime where
  day : Int
deriving DecidableEq

/-- `datetime.min` = 0001-01-01. -/
def datetime_min : PyDateTime := ⟨0⟩

/-- `datetime.max` (date part 9999-12-31). -/
def datetime_max : PyDateTime := ⟨3652058⟩

/-- `dt - timedelta(days = k)`. -/
def subDays (dt : PyDateTime) (k : Int) : PyDateTime := ⟨dt.day - k⟩

def pad2 (n : Nat) : String :=
  if n < 10 then "0" ++ Nat.repr n else Nat.repr n

def pad4 (n : Nat) : String :=
  if n < 10 then "000" ++ Nat.repr n
  else if n < 100 then "00" ++ Nat.repr n
  else if n < 1000 then "0" ++ Nat.repr n
  else Nat.repr n

/-- Civil calendar date of a day count (days since 0001-01-01), via the
standard era decomposition of the proleptic Gregorian calendar. -/
def civilOfDay (day : Int) : Int × Int × Int :=
  let z := day + 306
  let era := z / 146097
  let doe := z - era * 146097
  let yoe := (doe - doe / 1460 + doe / 36524 - doe / 146096) / 365
  let y := yoe + era * 400
  let doy := doe - (365 * yoe + yoe / 4 - yoe / 100)
  let mp := (5 * doy + 2) / 153
  let d := doy - (153 * mp + 2) / 5 + 1
  let m := mp + (if mp < 10 then 3 else -9)
  (y + (if m ≤ 2 then 1 else 0), m, d)

/-- `dt.strftime("%Y-%m-%d")`. -/
def strftime_Ymd (dt : PyDateTime) : String :=
  match civilOfDay dt.day with
  | (y, m, d) => pad4 y.toNat ++ "-" ++ pad2 m.toNat ++ "-" ++ pad2 d.toNat

/-- The five values of the `quick_time_filter` literal annotation. -/
inductive QuickTimeFilter
  | All
  | LastMonth
  | Last3Months
  | Last6Months
  | Last12Months
deriving DecidableEq

structure Filter where
  quick_time_filter : Option QuickTimeFilter
  start_date : PyDateTime
  end_date : PyDateTime
  match_type : String
  cs_version : String
  maps : List String
  ranking : String
deriving DecidableEq

/-- `Filter.__init__`: `none` models passing `quick_time_filter=None`
(the documented way to make the explicit dates effective); any of the
five literals overrides `start_date`/`end_date` with a window anchored at
the current clock reading `now`. -/
def Filter.init (now : PyDateTime) (quick_time_filter : Option QuickTimeFilter)
    (start_date end_date : PyDateTime) (match_type cs_version : String)
    (maps : List String) (ranking : String) : Filter :=
  match quick_time_filter with
  | some q =>
    let dates :=
      match q with
      | .All => (datetime_min, now)
      | .LastMonth => (subDays now 30, now)
      | .Last3Months => (subDays now 90, now)
      | .Last6Months => (subDays now 180, now)
      | .Last12Months => (subDays now 365, now)
    { quick_time_filter := quick_time_filter
      start_date := dates.1
      end_date := dates.2
      match_type := match_type
      cs_version := cs_version
      maps := maps
      ranking := ranking }
  | none =>
    { quick_time_filter := none
      start_date := start_date
      end_date := end_date
      match_type := match_type
      cs_version := cs_version
      maps := maps
      ranking := ranking }

/-- `Filter.__str__`: builds the insertion-ordered query dict and joins
`key=value` pairs with `&`.  (In Python, `None != 'All'` is `True`, hence
the comparison against `some .All`.) -/
def Filter.str (f : Filter) : String :=
  let query : List (String × String) :=
    (if f.quick_time_filter ≠ some QuickTimeFilter.All then
        [("startDate", strftime_Ymd f.start_date), ("endDate", strftime_Ymd f.end_date)]
      else [])
    ++ (if f.match_type ≠ "All" then [("matchType", f.match_type)] else [])
    ++ (if f.cs_version ≠ "All" then [("csVersion", f.cs_version)] else [])
    ++ (if "All" ∉ f.maps then [("maps", String.intercalate "&" f.maps)] else [])
    ++ (if f.ranking ≠ "All" then [("rankingFilter", f.ranking)] else [])
  String.intercalate "&" (query.map (fun kv => kv.1 ++ "=" ++ kv.2))

/-- C6: formatting emits only the non-default criteria, in the fixed
order startDate/endDate (only when the quick time filter is not "All"),
matchType, csVersion, maps, rankingFilter, joined by `&`; an all-default
Filter formats to the empty string, and a Filter whose only non-default
criterion is `ranking = "Top5"` formats to exactly `rankingFilter=Top5`. -/
theorem filter_str_fixed_order :
    (∀ f : Filter,
      Filter.str f =
        String.intercalate "&"
          ((if f.quick_time_filter ≠ some QuickTimeFilter.All then
              ["startDate=" ++ strftime_Ymd f.start_date,
               "endDate=" ++ strftime_Ymd f.end_date]
            else [])
          ++ (if f.match_type ≠ "All" then ["matchType=" ++ f.match_type] else [])
          ++ (if f.cs_version ≠ "All" then ["csVersion=" ++ f.cs_version] else [])
          ++ (if "All" ∉ f.maps then ["maps=" ++ String.intercalate "&" f.maps] else [])
          ++ (if f.ranking ≠ "All" then ["rankingFilter=" ++ f.ranking] else [])))
    ∧ (∀ now : PyDateTime,
      Filter.str (Filter.init now (some .All) datetime_min datetime_max
        "All" "All" ["All"] "All") = "")
    ∧ (∀ now : PyDateTime,
      Filter.str (Filter.init now (some .All) datetime_min datetime_max
        "All" "All" ["All"] "Top5") = "rankingFilter=Top5") := by
  refine ⟨?_, fun now => rfl, fun now => rfl⟩
  intro f
  simp only [Filter.str]
  split_ifs <;> simp

/-- C7: a Filter constructed with any relative time shorthand computes
`start_date`/`end_date` from the current clock at construction time —
"All" yields [minimum-representable date, now], the others yield
[now − 30/90/180/365 days, now] — and the stored dates are independent of
the explicit `start_date`/`end_date` arguments. -/
theorem filter_init_quick_time_override (now s e s' e' : PyDateTime)
    (mt cv : String) (mp : List String) (rk : String) (q : QuickTimeFilter) :
    ((Filter.init now (some q) s e mt cv mp rk).start_date,
      (Filter.init now (some q) s e mt cv mp rk).end_date)
      = (match q with
        | .All => (datetime_min, now)
        | .LastMonth => (subDays now 30, now)
        | .Last3Months => (subDays now 90, now)
        | .Last6Months => (subDays now 180, now)
        | .Last12Months => (subDays now 365, now))
    ∧ Filter.init now (some q) s e mt cv mp rk
        = Filter.init now (some q) s' e' mt cv mp rk := by
  cases q <;> exact ⟨rfl, rfl⟩

/-- C9 counterexample: two Filters built from the same criteria — the map
set `{de_dust2, de_mirage}` supplied in the two possible iteration
orders — format to different strings, so the joined `maps=` values do not
appear in one fixed order determined by the set contents. -/
theorem filter_str_maps_order_counterexample :
    List.Perm
      (Filter.init ⟨738000⟩ (some .All) datetime_min datetime_max
        "All" "All" ["de_dust2", "de_mirage"] "All").maps
      (Filter.init ⟨738000⟩ (some .All) datetime_min datetime_max
        "All" "All" ["de_mirage", "de_dust2"] "All").maps
    ∧ Filter.str (Filter.init ⟨738000⟩ (some .All) datetime_min datetime_max
        "All" "All" ["de_dust2", "de_mirage"] "All")
      ≠ Filter.str (Filter.init ⟨738000⟩ (some .All) datetime_min datetime_max
        "All" "All" ["de_mirage", "de_dust2"] "All") := by
  constructor
  · decide
  · decide

/-- C9 amended: formatting is a function of the criteria together with
the map set's iteration order.  Two Filters agreeing on every criterion
and on the map-set elements format identically whenever the map set
contains the wildcard "All" (the `maps=` field is then omitted) or the
two iteration orders coincide; the `maps=` values themselves are joined
in iteration order, which CPython does not fix from the set contents. -/
theorem filter_str_maps_order (f g : Filter)
    (hq : f.quick_time_filter = g.quick_time_filter)
    (hs : f.start_date = g.start_date)
    (he : f.end_date = g.end_date)
    (hm : f.match_type = g.match_type)
    (hv : f.cs_version = g.cs_version)
    (hr : f.ranking = g.ranking)
    (hset : List.Perm f.maps g.maps) :
    ("All" ∈ f.maps → Filter.str f = Filter.str g)
    ∧ (f.maps = g.maps → Filter.str f = Filter.str g) := by
  constructor
  · intro hAll
    have hAllg : "All" ∈ g.maps := hset.mem_iff.mp hAll
    simp [Filter.str, hq, hs, he, hm, hv, hr, hAll, hAllg]
  · intro hmap
    have : f = g := by
      cases f
      cases g
      simp_all
    rw [this]

/-- Witness for C9's amended theorem: two concrete Filters with the same
wildcard-containing map set in different iteration orders format to the
same string. -/
theorem filter_str_maps_order_witness :
    Filter.str (Filter.init ⟨738000⟩ (some .All) datetime_min datetime_max
      "Online" "CS2" ["All", "de_dust2"] "Top5")
      = Filter.str (Filter.init ⟨738000⟩ (some .All) datetime_min datetime_max
        "Online" "CS2" ["de_dust2", "All"] "Top5") :=
  (filter_str_maps_order
    (Filter.init ⟨738000⟩ (some .All) datetime_min datetime_max
      "Online" "CS2" ["All", "de_dust2"] "Top5")
    (Filter.init ⟨738000⟩ (some .All) datetime_min datetime_max
      "Online" "CS2" ["de_dust2", "All"] "Top5")
    rfl rfl rfl rfl rfl rfl (by decide)).1 (by decide)

/-!
## Stat extraction — `src/player.py`, `get_basic_stats`

The body navigates and then runs one dict comprehension

    stats = {key: driver.find_element(By.CSS_SELECTOR, value).text.split("\n")[0]
             for key, value in selector_paths.items()}

A raising `find_element` is modelled as `find : String -> Option String`
(`none` = `NoSuchElementException`); the comprehension is `none` as soon
as any locator fails, which the enclosing retry decorator then sees as
one failure of the whole extraction.
-/

/-- `text.split("\n")[0]`: the content up to the first line break. -/
def firstLine (s : String) : String :=
  String.takeWhile s (fun c => c ≠ '\n')

/-- The dict comprehension over a field-to-locator mapping: all-or-nothing. -/
def extract_stats (find : String → Option String) :
    List (String × String) → Option (List (String × String))
  | [] => some []
  | (key, locator) :: rest =>
    match find locator with
    | none => none
    | some t =>
      match extract_stats find rest with
      | none => none
      | some r => some ((key, firstLine t) :: r)

/-- The `selector_paths` mapping of `get_basic_stats` (field → CSS selector). -/
def selector_paths : List (String × String) :=
  [("rt", "body > div.bgPadding > div.widthControl > div:nth-child(2) > div.contentCol > div.stats-section.stats-player.stats-player-overview > div.player-summary-stat-box.compact > div.player-summary-stat-box-right > div.player-summary-stat-box-right-middle > div.player-summary-stat-box-rating-wrapper.average > div.player-summary-stat-box-rating-data-text"),
   ("t_side_rt", "body > div.bgPadding > div.widthControl > div:nth-child(2) > div.contentCol > div.stats-section.stats-player.stats-player-overview > div.player-summary-stat-box.compact > div.player-summary-stat-box-right > div.player-summary-stat-box-right-middle > div.player-summary-stat-box-side-rating.t-rating > div"),
   ("ct_side_rt", "body > div.bgPadding > div.widthControl > div:nth-child(2) > div.contentCol > div.stats-section.stats-player.stats-player-overview > div.player-summary-stat-box.compact > div.player-summary-stat-box-right > div.player-summary-stat-box-right-middle > div.player-summary-stat-box-side-rating.ct-rating > div"),
   ("round_swing", "body > div.bgPadding > div.widthControl > div:nth-child(2) > div.contentCol > div.stats-section.stats-player.stats-player-overview > div.player-summary-stat-box.compact > div.player-summary-stat-box-right > div.player-summary-stat-box-right-bottom > div:nth-child(1) > div.player-summary-stat-box-data"),
   ("dpr", "body > div.bgPadding > div.widthControl > div:nth-child(2) > div.contentCol > div.stats-section.stats-player.stats-player-overview > div.player-summary-stat-box.compact > div.player-summary-stat-box-right > div.player-summary-stat-box-right-bottom > div:nth-child(2) > div.player-summary-stat-box-data.traditionalData"),
   ("kast", "body > div.bgPadding > div.widthControl > div:nth-child(2) > div.contentCol > div.stats-section.stats-player.stats-player-overview > div.player-summary-stat-box.compact > div.player-summary-stat-box-right > div.player-summary-stat-box-right-bottom > div:nth-child(3) > div.player-summary-stat-box-data.traditionalData"),
   ("multi_kill", "body > div.bgPadding > div.widthControl > div:nth-child(2) > div.contentCol > div.stats-section.stats-player.stats-player-overview > div.player-summary-stat-box.compact > div.player-summary-stat-box-right > div.player-summary-stat-box-right-bottom > div:nth-child(4) > div.player-summary-stat-box-data.traditionalData"),
   ("adr", "body > div.bgPadding > div.widthControl > div:nth-child(2) > div.contentCol > div.stats-section.stats-player.stats-player-overview > div.player-summary-stat-box.compact > div.player-summary-stat-box-right > div.player-summary-stat-box-right-bottom > div:nth-child(5) > div.player-summary-stat-box-data.traditionalData"),
   ("kpr", "body > div.bgPadding > div.widthControl > div:nth-child(2) > div.contentCol > div.stats-section.stats-player.stats-player-overview > div.player-summary-stat-box.compact > div.player-summary-stat-box-right > div.player-summary-stat-box-right-bottom > div:nth-child(6) > div.player-summary-stat-box-data.traditionalData")]

/-- The record-producing part of `get_basic_stats`. -/
def get_basic_stats (find : String → Option String) :
    Option (List (String × String)) :=
  extract_stats find selector_paths

theorem extract_stats_fail (find : String → Option String) :
    ∀ mapping : List (String × String),
      (∃ kv ∈ mapping, find kv.2 = none) → extract_stats find mapping = none := by
  intro mapping
  induction mapping with
  | nil => rintro ⟨kv, h, -⟩; simp at h
  | cons hd tl ih =>
    rintro ⟨kv, hmem, hfail⟩
    obtain ⟨key, locator⟩ := hd
    rcases List.mem_cons.mp hmem with h | h
    · subst h
      simp [extract_stats, hfail]
    · rw [extract_stats]
      cases find locator with
      | none => rfl
      | some t => rw [ih ⟨kv, h, hfail⟩]

theorem extract_stats_keys (find : String → Option String) :
    ∀ (mapping : List (String × String)) (r : List (String × String)),
      extract_stats find mapping = some r →
        r.map Prod.fst = mapping.map Prod.fst := by
  intro mapping
  induction mapping with
  | nil =>
    intro r h
    simp [extract_stats] at h
    simp [← h]
  | cons hd tl ih =>
    intro r h
    obtain ⟨key, locator⟩ := hd
    rw [extract_stats] at h
    cases hf : find locator with
    | none => rw [hf] at h; exact absurd h (by simp)
    | some t =>
      rw [hf] at h
      cases he : extract_stats find tl with
      | none => rw [he] at h; exact absurd h (by simp)
      | some r' =>
        rw [he] at h
        simp only [Option.some.injEq] at h
        subst h
        simp [ih r' he]

/-- C5: extraction is all-or-nothing — for every field-to-locator mapping,
if any single locator fails to resolve the whole extraction yields no
record (one failure for the enclosing retry policy, never a partial
record), and on success the record carries exactly the mapping's fields;
in particular this holds for `get_basic_stats` and its selector map. -/
theorem get_basic_stats_atomic (find : String → Option String) :
    (∀ mapping : List (String × String),
      ((∃ kv ∈ mapping, find kv.2 = none) → extract_stats find mapping = none)
      ∧ (∀ r, extract_stats find mapping = some r →
          r.map Prod.fst = mapping.map Prod.fst))
    ∧ ((∃ kv ∈ selector_paths, find kv.2 = none) → get_basic_stats find = none)
    ∧ (∀ r, get_basic_stats find = some r →
        r.map Prod.fst = selector_paths.map Prod.fst) :=
  ⟨fun mapping => ⟨extract_stats_fail find mapping, extract_stats_keys find mapping⟩,
    extract_stats_fail find selector_paths,
    extract_stats_keys find selector_paths⟩

/-- Witness for C5: one failing locator out of two kills the whole record. -/
theorem get_basic_stats_atomic_witness :
    extract_stats (fun s => if s = "locA" then some "1.23" else none)
      [("rt", "locA"), ("dpr", "locB")] = none :=
  ((get_basic_stats_atomic (fun s => if s = "locA" then some "1.23" else none)).1
    [("rt", "locA"), ("dpr", "locB")]).1
    ⟨("dpr", "locB"), by decide, by decide⟩

/-!
## Page URL shape — `src/player.py`, `get_matches_from_url`

    if offset == 0:
        src_url = f"{BASE_URL}/stats/players/matches/{id}/{name}?{filter}"
    else:
        src_url = f"{BASE_URL}/stats/players/matches/{id}/{name}?offset={offset}&{filter}"
-/

def match_page_url (base player_id player_name : String) (offset : Nat)
    (query : String) : String :=
  if offset = 0 then
    base ++ "/stats/players/matches/" ++ player_id ++ "/" ++ player_name ++ "?" ++ query
  else
    base ++ "/stats/players/matches/" ++ player_id ++ "/" ++ player_name
      ++ "?offset=" ++ Nat.repr offset ++ "&" ++ query

/-- C8: each page fetch of the pagination crawl requests
`{base}/stats/players/matches/{id}/{slug}?{query}` when the offset is 0
(the offset parameter is omitted) and
`{base}/stats/players/matches/{id}/{slug}?offset={n}&{query}` for every
offset `n > 0`. -/
theorem match_page_url_shape (base player_id player_name query : String) (n : Nat) :
    match_page_url base player_id player_name 0 query
      = base ++ "/stats/players/matches/" ++ player_id ++ "/" ++ player_name
          ++ "?" ++ query
    ∧ (0 < n →
      match_page_url base player_id player_name n query
        = base ++ "/stats/players/matches/" ++ player_id ++ "/" ++ player_name
            ++ "?offset=" ++ Nat.repr n ++ "&" ++ query) := by
  refine ⟨rfl, fun h => ?_⟩
  rw [match_page_url, if_neg (Nat.pos_iff_ne_zero.mp h)]

/-- Witness for C8 at offset 300. -/
theorem match_page_url_shape_witness :
    match_page_url "https://www.hltv.org" "3741" "NiKo" 300 "rankingFilter=Top5"
      = "https://www.hltv.org" ++ "/stats/players/matches/" ++ "3741" ++ "/"
          ++ "NiKo" ++ "?offset=" ++ Nat.repr 300 ++ "&" ++ "rankingFilter=Top5" :=
  (match_page_url_shape "https://www.hltv.org" "3741" "NiKo"
    "rankingFilter=Top5" 300).2 (by decide)

/-!
## Player URL parsing — `src/player.py`, `parse_player_website`

    player_url = player_url.lstrip(self._config.BASE_URL + '/player/')
    player_id, player_name = player_url.split('/')

Python's `str.lstrip(chars)` removes the maximal leading run of
characters drawn from the character SET of its argument — it does not
remove a literal prefix.  Strings are handled as `List Char`;
`str.split('/')` is total and the two-variable unpacking raises
`ValueError` unless the split has exactly two parts, modelled as `none`.
-/

/-- `str.lstrip(chars)`. -/
def lstripChars (chars : List Char) : List Char → List Char
  | [] => []
  | c :: cs => if c ∈ chars then lstripChars chars cs else c :: cs

/-- `str.split(sep)` for a one-character separator. -/
def splitOnChar (sep : Char) : List Char → List (List Char)
  | [] => [[]]
  | c :: cs =>
    match splitOnChar sep cs with
    | [] => [[]]
    | r :: rs => if c = sep then [] :: r :: rs else (c :: r) :: rs

/-- The configured default `BASE_URL`. -/
def BASE_URL : String := "https://www.hltv.org"

/-- `parse_player_website` up to the stored pair
`(player_id, player_name)`; `none` models the `ValueError` of a failed
two-variable unpacking. -/
def parse_player_website (player_url : List Char) : Option (List Char × List Char) :=
  let stripped := lstripChars (BASE_URL ++ "/player/").toList player_url
  match splitOnChar '/' stripped with
  | [player_id, player_name] => some (player_id, player_name)
  | _ => none

theorem lstripChars_append (chars p rest : List Char)
    (hp : ∀ c ∈ p, c ∈ chars) :
    lstripChars chars (p ++ rest) = lstripChars chars rest := by
  induction p with
  | nil => rfl
  | cons c cs ih =>
    have hc : c ∈ chars := hp c (List.mem_cons_self c cs)
    simp only [List.cons_append, lstripChars, if_pos hc]
    exact ih (fun d hd => hp d (List.mem_cons_of_mem c hd))

theorem lstripChars_stop (chars : List Char) (c : Char) (cs : List Char)
    (hc : c ∉ chars) : lstripChars chars (c :: cs) = c :: cs := by
  simp [lstripChars, hc]

theorem splitOnChar_ne_nil (sep : Char) (l : List Char) : splitOnChar sep l ≠ [] := by
  cases l with
  | nil => simp [splitOnChar]
  | cons c cs =>
    rw [splitOnChar]
    cases h : splitOnChar sep cs with
    | nil => simp
    | cons r rs =>
      by_cases hc : c = sep <;> simp [hc]

theorem splitOnChar_no_sep (sep : Char) (l : List Char) (h : sep ∉ l) :
    splitOnChar sep l = [l] := by
  induction l with
  | nil => rfl
  | cons c cs ih =>
    have hcs : sep ∉ cs := fun hmem => h (List.mem_cons_of_mem c hmem)
    have hc : c ≠ sep := fun hid => h (hid ▸ List.mem_cons_self c cs)
    rw [splitOnChar, ih hcs]
    simp [hc]

theorem splitOnChar_append (sep : Char) (a b : List Char) (ha : sep ∉ a) :
    splitOnChar sep (a ++ sep :: b) = a :: splitOnChar sep b := by
  induction a with
  | nil =>
    rw [List.nil_append, splitOnChar]
    cases h : splitOnChar sep b with
    | nil => exact absurd h (splitOnChar_ne_nil sep b)
    | cons r rs => simp
  | cons c cs ih =>
    have hcs : sep ∉ cs := fun hmem => ha (List.mem_cons_of_mem c hmem)
    have hc : c ≠ sep := fun hid => ha (hid ▸ List.mem_cons_self c cs)
    rw [List.cons_append, splitOnChar, ih hcs]
    cases h : splitOnChar sep b with
    | nil => exact absurd h (splitOnChar_ne_nil sep b)
    | cons r rs => simp [hc]

/-- C10: for a player URL exactly of the form
`{BASE_URL}/player/{id}/{slug}` with `id` a non-empty digit string and
`slug` non-empty without `/`, the parser stores `player_id = id` and
`player_name = slug`; the digit-leading precondition is what makes the
character-set `lstrip` stop exactly at the end of the literal prefix — a
slug-like id made of prefix characters (final conjunct) is mangled. -/
theorem parse_player_website_ok (id slug : List Char)
    (hid : id ≠ []) (hdig : ∀ c ∈ id, c.isDigit)
    (hslug : slug ≠ []) (hnoslash : ('/' : Char) ∉ slug) :
    parse_player_website ((BASE_URL ++ "/player/").toList ++ (id ++ '/' :: slug))
      = some (id, slug)
    ∧ parse_player_website ("https://www.hltv.org/player/py/thon".toList)
        ≠ some ("py".toList, "thon".toList) := by
  refine ⟨?_, by decide⟩
  have hset : ∀ c ∈ (BASE_URL ++ "/player/").toList, ¬ c.isDigit := by decide
  obtain ⟨c, cs, rfl⟩ := List.exists_cons_of_ne_nil hid
  have hc : c ∉ (BASE_URL ++ "/player/").toList := fun hmem =>
    hset c hmem (hdig c (List.mem_cons_self c cs))
  have hnodig : ('/' : Char) ∉ c :: cs := fun hmem => by
    have := hdig '/' hmem
    simp [Char.isDigit] at this
  rw [parse_player_website]
  rw [lstripChars_append _ _ _ (fun d hd => hd)]
  rw [List.cons_append, lstripChars_stop _ _ _ hc]
  rw [← List.cons_append, splitOnChar_append _ _ _ hnodig,
    splitOnChar_no_sep _ _ hnoslash]

/-- Witness for C10 on the URL of the player NiKo. -/
theorem parse_player_website_ok_witness :
    parse_player_website ((BASE_URL ++ "/player/").toList
        ++ ("3741".toList ++ '/' :: "niko".toList))
      = some ("3741".toList, "niko".toList) :=
  (parse_player_website_ok "3741".toList "niko".toList
    (by decide) (by decide) (by decide) (by decide)).1

end HLTV
